import Mathlib

/-!
Verification development for the MediAid triage application
(`src/medaid_app.py`).  The Python functions are embedded shallowly:
strings are Lean `String`s manipulated through explicit ASCII models of
the Python string methods used by the source (`lower`, `strip`, `title`,
`in`, `splitlines`, `split(":", 1)`); the optional dataset, the optional
remote-reasoning client and the outcome of the remote call are explicit
parameters; the history file is an `Option (List HistoryEntry)` threaded
through `save_history` / `load_history`.
-/

namespace MediAid

/-! ### ASCII models of the Python string primitives used by the source -/

/-- Model of `str.lower` on one character (ASCII). -/
def lowerChar (c : Char) : Char :=
  if 'A' ≤ c ∧ c ≤ 'Z' then Char.ofNat (c.toNat + 32) else c

/-- Model of `str.upper` on one character (ASCII). -/
def upperChar (c : Char) : Char :=
  if 'a' ≤ c ∧ c ≤ 'z' then Char.ofNat (c.toNat - 32) else c

/-- ASCII letter test (the cased characters relevant to `str.title`). -/
def isAsciiLetter (c : Char) : Bool :=
  decide (('a' ≤ c ∧ c ≤ 'z') ∨ ('A' ≤ c ∧ c ≤ 'Z'))

/-- Whitespace characters removed by Python `str.strip`. -/
def isPyWs (c : Char) : Bool :=
  c == ' ' || c == '\t' || c == '\n' || c == '\r' || c == '\x0b' || c == '\x0c'

def dropLeadWs : List Char → List Char
  | [] => []
  | c :: cs => if isPyWs c then dropLeadWs cs else c :: cs

/-- Model of Python `str.strip()`. -/
def pyStrip (s : String) : String :=
  ⟨(dropLeadWs (dropLeadWs s.data).reverse).reverse⟩

/-- Model of Python `str.lower()`. -/
def pyLower (s : String) : String :=
  ⟨s.data.map lowerChar⟩

def titleAux : Bool → List Char → List Char
  | _, [] => []
  | prev, c :: cs => (if prev then lowerChar c else upperChar c) :: titleAux (isAsciiLetter c) cs

/-- Model of Python `str.title()`: a character is uppercased when the
previous character is not a letter, lowercased otherwise. -/
def pyTitle (s : String) : String :=
  ⟨titleAux false s.data⟩

def listIsPref : List Char → List Char → Bool
  | [], _ => true
  | _ :: _, [] => false
  | a :: as, b :: bs => a == b && listIsPref as bs

def listHasSub (n : List Char) : List Char → Bool
  | [] => n.isEmpty
  | b :: bs => listIsPref n (b :: bs) || listHasSub n bs

/-- Model of Python `needle in hay` on strings (substring containment;
the empty string is contained in every string). -/
def pyIn (needle hay : String) : Bool :=
  listHasSub needle.data hay.data

def splitLinesAux (acc : List Char) : List Char → List (List Char)
  | [] => if acc.isEmpty then [] else [acc.reverse]
  | c :: cs => if c = '\n' then acc.reverse :: splitLinesAux [] cs else splitLinesAux (c :: acc) cs

/-- Model of Python `str.splitlines()` for `\n`-separated text
(no element for a trailing newline, `[] ` on the empty string). -/
def pySplitlines (s : String) : List String :=
  (splitLinesAux [] s.data).map (fun l => ⟨l⟩)

def afterColonAux : List Char → Option (List Char)
  | [] => none
  | c :: cs => if c = ':' then some cs else afterColonAux cs

/-- Model of Python `line.split(":", 1)[-1]`: the text after the first
colon, or the whole line when it has no colon. -/
def pyAfterFirstColon (line : String) : String :=
  match afterColonAux line.data with
  | some r => ⟨r⟩
  | none => line

/-! ### Static data of the source (`CONDITIONS`, `SEVERITY_DISPLAY`) -/

/-- One entry of the static fallback rule table. -/
structure Condition where
  keywords : List String
  severity : String
  advice : String
deriving DecidableEq

/-- `CONDITIONS` from the source: the static fallback rules, most severe
first. -/
def CONDITIONS : List Condition := [
  ⟨["chest pain", "shortness of breath", "severe bleeding", "unconscious", "stroke", "heart attack"],
   "Severe",
   "Go to the ER immediately. Call emergency services (911 or your local number)."⟩,
  ⟨["high fever", "vomiting", "dehydration", "severe headache", "confusion", "stiff neck", "difficulty breathing"],
   "Moderate",
   "Consult a doctor within 24 hours. If symptoms worsen, seek emergency care."⟩,
  ⟨["cough", "runny nose", "mild headache", "mild sore throat", "back pain", "fatigue"],
   "Mild",
   "Home care recommended. Rest, stay hydrated, and monitor symptoms."⟩]

/-- The keys of the source's `SEVERITY_DISPLAY` dict.  The core logic
only ever uses key membership (`val in SEVERITY_DISPLAY`); the values
(color, icon, description) are presentation-only and not modelled. -/
def SEVERITY_DISPLAY : List String := ["Mild", "Moderate", "Severe"]

/-! ### `preprocess` and the dataset tier -/

/-- `preprocess`: `text.lower().strip()`. -/
def preprocess (text : String) : String :=
  pyStrip (pyLower text)

/-- One row of the symptoms dataset (columns `symptom`, `disease`,
`risk_level`). -/
structure DatasetRow where
  symptom : String
  disease : String
  risk_level : String
deriving DecidableEq

/-- The per-row effect of `load_dataset`'s column cleanup:
`symptom.lower().strip()`, `disease.strip()`, `risk_level.strip().title()`. -/
def cleanRow (r : DatasetRow) : DatasetRow :=
  ⟨pyStrip (pyLower r.symptom), pyStrip r.disease, pyTitle (pyStrip r.risk_level)⟩

/-- `load_dataset`: `none` models an absent dataset file; a present file
is the list of its raw rows, which are kept after column cleanup.  No
validation of `risk_level` is performed. -/
def load_dataset (src : Option (List DatasetRow)) : Option (List DatasetRow) :=
  match src with
  | none => none
  | some df => some (df.map cleanRow)

/-- The `risk_priority` dict lookup `risk_priority.get(risk_level, 0)`. -/
def risk_priority (r : String) : Nat :=
  if r = "Severe" then 3 else if r = "Moderate" then 2 else if r = "Mild" then 1 else 0

/-- Python `max(xs, key=...)`: left fold keeping the first element whose
key is maximal (a later element replaces only on strictly greater key). -/
def pyMaxAux (key : DatasetRow → Nat) : DatasetRow → List DatasetRow → DatasetRow
  | best, [] => best
  | best, r :: rs => pyMaxAux key (if key best < key r then r else best) rs

/-- The rows collected by `dataset_match`'s loop: those whose (cleaned)
symptom phrase occurs in the input text. -/
def candidates (rows : List DatasetRow) (symptoms_text : String) : List DatasetRow :=
  rows.filter (fun row => pyIn row.symptom symptoms_text)

/-- The dict returned by a successful `dataset_match`. -/
structure DatasetResult where
  disease : String
  severity : String
  advice : String
deriving DecidableEq

/-- The templated advice of the dataset tier. -/
def dataset_advice (disease : String) : String :=
  "Possible: " ++ disease ++ ". Please consult a doctor for proper diagnosis."

/-- `dataset_match`: collect every row whose symptom is a substring of
the text; fail on no candidate; otherwise take the candidate with the
highest `risk_priority` (Python `max`, first-encountered on ties). -/
def dataset_match (symptoms_df : Option (List DatasetRow)) (symptoms_text : String) :
    Option DatasetResult :=
  match symptoms_df with
  | none => none
  | some rows =>
    match candidates rows symptoms_text with
    | [] => none
    | m :: ms =>
      let best := pyMaxAux (fun row => risk_priority row.risk_level) m ms
      some ⟨best.disease, best.risk_level, dataset_advice best.disease⟩

/-! ### The rule tier -/

def ruleScan : List Condition → String → String × String
  | [], _ => ("Mild", "Home care recommended. Rest, stay hydrated, and monitor symptoms.")
  | cond :: rest, text =>
    if cond.keywords.any (fun kw => pyIn kw text) then (cond.severity, cond.advice)
    else ruleScan rest text

/-- `rule_based_triage`: first condition (in catalog order) one of whose
keywords occurs in the text; hardcoded Mild default otherwise. -/
def rule_based_triage (symptoms_text : String) : String × String :=
  ruleScan CONDITIONS symptoms_text

/-! ### The reasoning (LLM) tier -/

/-- The parse state of `llm_triage`'s response loop
(`severity = "Mild"`, `advice = ""`, `disease = ""` initially). -/
structure ParseState where
  severity : String
  advice : String
  disease : String
deriving DecidableEq

/-- The severity value extracted from a `Severity:` line:
`line.split(":", 1)[-1].strip().title()`. -/
def sevVal (line : String) : String :=
  pyTitle (pyStrip (pyAfterFirstColon line))

/-- `line.lower().startswith("severity:")`. -/
def isSevLine (line : String) : Bool :=
  listIsPref "severity:".data (pyLower line).data

/-- `line.lower().startswith("advice:")`. -/
def isAdvLine (line : String) : Bool :=
  listIsPref "advice:".data (pyLower line).data

/-- `line.lower().startswith("disease:")`. -/
def isDisLine (line : String) : Bool :=
  listIsPref "disease:".data (pyLower line).data

/-- One iteration of `llm_triage`'s parsing loop (the `if`/`elif` chain
over a response line). -/
def parseLine (st : ParseState) (line : String) : ParseState :=
  if isSevLine line then
    if SEVERITY_DISPLAY.contains (sevVal line) then { st with severity := sevVal line } else st
  else if isAdvLine line then { st with advice := pyStrip (pyAfterFirstColon line) }
  else if isDisLine line then { st with disease := pyStrip (pyAfterFirstColon line) }
  else st

/-- The whole parsing loop of `llm_triage` over a response text. -/
def parseLLMText (text : String) : ParseState :=
  (pySplitlines text).foldl parseLine ⟨"Mild", "", ""⟩

/-- The instructional prompt built by `llm_triage`. -/
def llm_prompt (symptoms_text : String) : String :=
  "You are a medical triage assistant. " ++
  "A patient describes their symptoms. " ++
  "Decide the urgency: Mild (home care, self-monitor), Moderate (see a doctor within 24h), Severe (go to ER now). " ++
  "Give a short summary of severity and advice, and if possible, suggest a likely disease (optional).\n\n" ++
  "Symptoms: " ++ symptoms_text ++ "\n" ++
  "Respond in this exact format:\n" ++
  "Severity: [Mild/Moderate/Severe]\n" ++
  "Advice: [brief advice]\n" ++
  "Disease: [optional, if highly likely]\n"

/-- `llm_triage`.  `client` models whether `openai_client` is configured;
`call` models the remote call's outcome for the prompt built from the
text: `none` when the call raises (any exception is caught and the
matcher fails), `some content` when it returns a message content. -/
def llm_triage (client : Bool) (call : Option String) (symptoms_text : String) :
    Option (String × String × String) :=
  if client = false then none
  else
    let _ := llm_prompt symptoms_text
    match call with
    | none => none
    | some content =>
      let st := parseLLMText (pyStrip content)
      some (st.severity, st.advice, st.disease)

/-! ### The orchestrator -/

/-- `triage_symptoms`: normalize, then try the dataset tier, the
reasoning tier and the rule tier in that order, returning the first
success (`(severity, advice, disease)`). -/
def triage_symptoms (symptoms_df : Option (List DatasetRow)) (client : Bool)
    (call : Option String) (symptoms_text : String) : String × String × String :=
  let t := preprocess symptoms_text
  match dataset_match symptoms_df t with
  | some res => (res.severity, res.advice, res.disease)
  | none =>
    match llm_triage client call t with
    | some (severity, advice, disease) => (severity, advice, disease)
    | none =>
      let sa := rule_based_triage t
      (sa.1, sa.2, "")

/-! ### The history store -/

/-- One persisted history entry. -/
structure HistoryEntry where
  symptoms : String
  severity : String
  advice : String
  disease : String
deriving DecidableEq

/-- `save_history`: read the file (absent file reads as `[]`), append
the entry, write the whole list back. -/
def save_history (file : Option (List HistoryEntry)) (entry : HistoryEntry) :
    Option (List HistoryEntry) :=
  let history := match file with | none => [] | some h => h
  some (history ++ [entry])

/-- `load_history`: the persisted list, `[]` when the file is absent. -/
def load_history (file : Option (List HistoryEntry)) : List HistoryEntry :=
  match file with
  | none => []
  | some h => h

/-! ### Claim-side selectors (used to state the last-line-wins property) -/

/-- The trimmed after-colon value of the last line satisfying `isLab`
(`none` when no line does). -/
def lastLabVal (isLab : String → Bool) : List String → Option String
  | [] => none
  | l :: ls =>
    match lastLabVal isLab ls with
    | some v => some v
    | none => if isLab l then some (pyStrip (pyAfterFirstColon l)) else none

/-- The value of the last `Severity:` line whose title-cased value is a
recognized tier (`none` when no such line exists). -/
def lastSevVal : List String → Option String
  | [] => none
  | l :: ls =>
    match lastSevVal ls with
    | some v => some v
    | none =>
      if isSevLine l && SEVERITY_DISPLAY.contains (sevVal l) then some (sevVal l) else none

def headChar : List Char → Option Char
  | [] => none
  | c :: _ => some c

/-! ### Helper lemmas: substring containment and Python max -/

theorem listHasSub_nil_left (l : List Char) : listHasSub [] l = true := by
  cases l <;> simp [listHasSub, listIsPref]

theorem pyIn_empty_left (s : String) : pyIn "" s = true := by
  have h : ("" : String).data = [] := rfl
  simp [pyIn, h, listHasSub_nil_left]

theorem pyMaxAux_key_le (key : DatasetRow → Nat) (b : DatasetRow) (rs : List DatasetRow) :
    key b ≤ key (pyMaxAux key b rs) := by
  induction rs generalizing b with
  | nil => simp [pyMaxAux]
  | cons r rs ih =>
    by_cases h : key b < key r
    · simpa [pyMaxAux, h] using le_trans h.le (ih r)
    · simpa [pyMaxAux, h] using ih b

theorem pyMaxAux_spec (key : DatasetRow → Nat) (b : DatasetRow) (rs : List DatasetRow) :
    ∃ pre post, b :: rs = pre ++ pyMaxAux key b rs :: post ∧
      (∀ a ∈ pre, key a < key (pyMaxAux key b rs)) ∧
      (∀ a ∈ post, key a ≤ key (pyMaxAux key b rs)) := by
  induction rs generalizing b with
  | nil => exact ⟨[], [], rfl, by simp, by simp⟩
  | cons r rs ih =>
    by_cases h : key b < key r
    · have hm : pyMaxAux key b (r :: rs) = pyMaxAux key r rs := by simp [pyMaxAux, h]
      rw [hm]
      obtain ⟨pre, post, heq, hpre, hpost⟩ := ih r
      refine ⟨b :: pre, post, ?_, ?_, hpost⟩
      · rw [List.cons_append, ← heq]
      · intro a ha
        rcases List.mem_cons.mp ha with rfl | ha
        · exact lt_of_lt_of_le h (pyMaxAux_key_le key r rs)
        · exact hpre a ha
    · have hm : pyMaxAux key b (r :: rs) = pyMaxAux key b rs := by simp [pyMaxAux, h]
      rw [hm]
      obtain ⟨pre, post, heq, hpre, hpost⟩ := ih b
      cases pre with
      | nil =>
        simp only [List.nil_append] at heq
        obtain ⟨hb, hrs⟩ := List.cons.inj heq
        refine ⟨[], r :: rs, ?_, by simp, ?_⟩
        · rw [List.nil_append, ← hb]
        · intro a ha
          rcases List.mem_cons.mp ha with rfl | ha
          · rw [← hb]; exact Nat.le_of_not_lt h
          · rw [← hrs] at hpost; exact hpost a ha
      | cons p pre =>
        rw [List.cons_append] at heq
        obtain ⟨hb, hrs⟩ := List.cons.inj heq
        refine ⟨b :: r :: pre, post, ?_, ?_, hpost⟩
        · rw [List.cons_append, List.cons_append, ← hrs]
        · intro a ha
          have hbm := hpre p (List.mem_cons_self p pre)
          rw [← hb] at hbm
          rcases List.mem_cons.mp ha with rfl | ha
          · exact hbm
          · rcases List.mem_cons.mp ha with rfl | ha
            · exact lt_of_le_of_lt (Nat.le_of_not_lt h) hbm
            · exact hpre a (List.mem_cons_of_mem p ha)

theorem pyMaxAux_mem (key : DatasetRow → Nat) (b : DatasetRow) (rs : List DatasetRow) :
    pyMaxAux key b rs ∈ b :: rs := by
  obtain ⟨pre, post, heq, -, -⟩ := pyMaxAux_spec key b rs
  rw [heq]
  exact List.mem_append_right _ (List.mem_cons_self _ _)

/-! ### Helper lemmas: the dataset tier -/

theorem dataset_match_of_no_candidate (rows : List DatasetRow) (t : String)
    (hc : candidates rows t = []) : dataset_match (some rows) t = none := by
  simp [dataset_match, hc]

theorem dataset_match_of_candidates (rows : List DatasetRow) (t : String) (m : DatasetRow)
    (ms : List DatasetRow) (hc : candidates rows t = m :: ms) :
    dataset_match (some rows) t =
      some ⟨(pyMaxAux (fun row => risk_priority row.risk_level) m ms).disease,
            (pyMaxAux (fun row => risk_priority row.risk_level) m ms).risk_level,
            dataset_advice (pyMaxAux (fun row => risk_priority row.risk_level) m ms).disease⟩ := by
  simp [dataset_match, hc]

theorem dataset_match_row (rows : List DatasetRow) (t : String) (res : DatasetResult)
    (h : dataset_match (some rows) t = some res) :
    ∃ row ∈ rows, pyIn row.symptom t = true ∧
      res = ⟨row.disease, row.risk_level, dataset_advice row.disease⟩ := by
  cases hc : candidates rows t with
  | nil =>
    rw [dataset_match_of_no_candidate rows t hc] at h
    exact absurd h (by simp)
  | cons m ms =>
    rw [dataset_match_of_candidates rows t m ms hc] at h
    have hmem : pyMaxAux (fun row => risk_priority row.risk_level) m ms ∈ m :: ms :=
      pyMaxAux_mem _ m ms
    rw [← hc] at hmem
    simp only [candidates, List.mem_filter] at hmem
    exact ⟨_, hmem.1, hmem.2, (Option.some.inj h).symm⟩

theorem risk_priority_le_three (s : String) : risk_priority s ≤ 3 := by
  unfold risk_priority
  split_ifs <;> omega

theorem risk_level_severe_of_priority_three (s : String) (h : risk_priority s = 3) :
    s = "Severe" := by
  unfold risk_priority at h
  split_ifs at h with h1 h2 h3
  · exact h1
  all_goals omega

theorem dataset_advice_ne_empty (d : String) : dataset_advice d ≠ "" := by
  intro h
  have h0 : ("" : String).data = [] := rfl
  have hd : (("Possible: " : String).data ++ d.data) ++
      (". Please consult a doctor for proper diagnosis." : String).data = ([] : List Char) := by
    have h2 := congrArg String.data h
    simp only [dataset_advice, String.data_append, h0] at h2
    exact h2
  rcases List.append_eq_nil.mp hd with ⟨h1, -⟩
  rcases List.append_eq_nil.mp h1 with ⟨h2, -⟩
  exact absurd h2 (by decide)

theorem mem_of_contains_eq_true {l : List String} {a : String} (h : l.contains a = true) :
    a ∈ l := by
  simpa using h

/-! ### Helper lemmas: label disjointness in the response parser -/

theorem listIsPref_headChar {n l : List Char} (h : listIsPref n l = true) :
    ∀ c, headChar n = some c → headChar l = some c := by
  intro c hc
  cases n with
  | nil => simp [headChar] at hc
  | cons a as =>
    cases l with
    | nil => simp [listIsPref] at h
    | cons b bs =>
      simp [listIsPref] at h
      simp [headChar] at hc ⊢
      rw [← h.1]
      exact hc

theorem label_disjoint {p q : String} {l : String}
    (hp : listIsPref p.data (pyLower l).data = true)
    (hq : listIsPref q.data (pyLower l).data = true)
    {c d : Char} (hcp : headChar p.data = some c) (hdq : headChar q.data = some d)
    (hne : c ≠ d) : False := by
  have h1 := listIsPref_headChar hp c hcp
  have h2 := listIsPref_headChar hq d hdq
  rw [h1] at h2
  exact hne (Option.some.inj h2)

theorem isAdvLine_eq_false_of_isSevLine {l : String} (h : isSevLine l = true) :
    isAdvLine l = false := by
  by_contra hc
  rw [Bool.not_eq_false] at hc
  exact label_disjoint h hc (c := 's') (d := 'a') rfl rfl (by decide)

theorem isDisLine_eq_false_of_isSevLine {l : String} (h : isSevLine l = true) :
    isDisLine l = false := by
  by_contra hc
  rw [Bool.not_eq_false] at hc
  exact label_disjoint h hc (c := 's') (d := 'd') rfl rfl (by decide)

theorem isDisLine_eq_false_of_isAdvLine {l : String} (h : isAdvLine l = true) :
    isDisLine l = false := by
  by_contra hc
  rw [Bool.not_eq_false] at hc
  exact label_disjoint h hc (c := 'a') (d := 'd') rfl rfl (by decide)

/-! ### Helper lemmas: the response parser -/

theorem parseLine_severity (st : ParseState) (l : String) :
    (parseLine st l).severity =
      if isSevLine l && SEVERITY_DISPLAY.contains (sevVal l) then sevVal l
      else st.severity := by
  by_cases hs : isSevLine l = true
  · by_cases hc : sevVal l ∈ SEVERITY_DISPLAY
    · simp [parseLine, hs, hc]
    · simp [parseLine, hs, hc]
  · by_cases ha : isAdvLine l = true
    · simp [parseLine, hs, ha]
    · by_cases hd : isDisLine l = true
      · simp [parseLine, hs, ha, hd]
      · simp [parseLine, hs, ha, hd]

theorem parseLine_advice (st : ParseState) (l : String) :
    (parseLine st l).advice =
      if isAdvLine l then pyStrip (pyAfterFirstColon l) else st.advice := by
  by_cases hs : isSevLine l = true
  · have ha := isAdvLine_eq_false_of_isSevLine hs
    by_cases hc : sevVal l ∈ SEVERITY_DISPLAY
    · simp [parseLine, hs, hc, ha]
    · simp [parseLine, hs, hc, ha]
  · by_cases ha : isAdvLine l = true
    · simp [parseLine, hs, ha]
    · by_cases hd : isDisLine l = true
      · simp [parseLine, hs, ha, hd]
      · simp [parseLine, hs, ha, hd]

theorem parseLine_disease (st : ParseState) (l : String) :
    (parseLine st l).disease =
      if isDisLine l then pyStrip (pyAfterFirstColon l) else st.disease := by
  by_cases hs : isSevLine l = true
  · have hd := isDisLine_eq_false_of_isSevLine hs
    by_cases hc : sevVal l ∈ SEVERITY_DISPLAY
    · simp [parseLine, hs, hc, hd]
    · simp [parseLine, hs, hc, hd]
  · by_cases ha : isAdvLine l = true
    · have hd := isDisLine_eq_false_of_isAdvLine ha
      simp [parseLine, hs, ha, hd]
    · by_cases hd : isDisLine l = true
      · simp [parseLine, hs, ha, hd]
      · simp [parseLine, hs, ha, hd]

theorem foldl_parseLine_severity (ls : List String) (st : ParseState) :
    (ls.foldl parseLine st).severity = (lastSevVal ls).getD st.severity := by
  induction ls generalizing st with
  | nil => rfl
  | cons l ls ih =>
    rw [List.foldl_cons, ih]
    cases hv : lastSevVal ls with
    | some v => simp [lastSevVal, hv]
    | none =>
      simp only [lastSevVal, hv]
      rw [parseLine_severity]
      cases hb : (isSevLine l && SEVERITY_DISPLAY.contains (sevVal l)) <;> simp [hb]

theorem foldl_parseLine_advice (ls : List String) (st : ParseState) :
    (ls.foldl parseLine st).advice = (lastLabVal isAdvLine ls).getD st.advice := by
  induction ls generalizing st with
  | nil => rfl
  | cons l ls ih =>
    rw [List.foldl_cons, ih]
    cases hv : lastLabVal isAdvLine ls with
    | some v => simp [lastLabVal, hv]
    | none =>
      simp only [lastLabVal, hv]
      rw [parseLine_advice]
      cases hb : isAdvLine l <;> simp [hb]

theorem foldl_parseLine_disease (ls : List String) (st : ParseState) :
    (ls.foldl parseLine st).disease = (lastLabVal isDisLine ls).getD st.disease := by
  induction ls generalizing st with
  | nil => rfl
  | cons l ls ih =>
    rw [List.foldl_cons, ih]
    cases hv : lastLabVal isDisLine ls with
    | some v => simp [lastLabVal, hv]
    | none =>
      simp only [lastLabVal, hv]
      rw [parseLine_disease]
      cases hb : isDisLine l <;> simp [hb]

theorem lastSevVal_mem (ls : List String) (v : String) (h : lastSevVal ls = some v) :
    v ∈ SEVERITY_DISPLAY := by
  induction ls with
  | nil => exact absurd h (by simp [lastSevVal])
  | cons l ls ih =>
    cases hv : lastSevVal ls with
    | some w =>
      simp only [lastSevVal, hv] at h
      rw [Option.some.inj h] at hv
      exact ih hv
    | none =>
      simp only [lastSevVal, hv] at h
      cases hsl : isSevLine l with
      | false => simp [hsl] at h
      | true =>
        simp [hsl] at h
        exact h.2 ▸ h.1

theorem lastSevVal_none_of_no_sev_line (ls : List String)
    (h : ∀ l ∈ ls, isSevLine l = false) : lastSevVal ls = none := by
  induction ls with
  | nil => rfl
  | cons l ls ih =>
    have h1 := h l (List.mem_cons_self l ls)
    have h2 := ih (fun x hx => h x (List.mem_cons_of_mem l hx))
    simp [lastSevVal, h1, h2]

theorem parseLLMText_severity_mem (text : String) :
    (parseLLMText text).severity ∈ SEVERITY_DISPLAY := by
  rw [parseLLMText, foldl_parseLine_severity]
  cases hv : lastSevVal (pySplitlines text) with
  | some v => exact lastSevVal_mem _ v hv
  | none => simp; decide

/-! ### Helper lemmas: the rule tier -/

theorem ruleScan_severity_mem (conds : List Condition) (text : String)
    (h : ∀ c ∈ conds, c.severity ∈ SEVERITY_DISPLAY) :
    (ruleScan conds text).1 ∈ SEVERITY_DISPLAY := by
  induction conds with
  | nil => rw [ruleScan]; decide
  | cons c cs ih =>
    rw [ruleScan]
    by_cases hc : c.keywords.any (fun kw => pyIn kw text) = true
    · simp only [hc, if_true]
      exact h c (List.mem_cons_self c cs)
    · simp only [hc, if_false]
      exact ih (fun x hx => h x (List.mem_cons_of_mem c hx))

theorem ruleScan_advice_ne_empty (conds : List Condition) (text : String)
    (h : ∀ c ∈ conds, c.advice ≠ "") :
    (ruleScan conds text).2 ≠ "" := by
  induction conds with
  | nil => rw [ruleScan]; decide
  | cons c cs ih =>
    rw [ruleScan]
    by_cases hc : c.keywords.any (fun kw => pyIn kw text) = true
    · simp only [hc, if_true]
      exact h c (List.mem_cons_self c cs)
    · simp only [hc, if_false]
      exact ih (fun x hx => h x (List.mem_cons_of_mem c hx))

theorem ruleScan_no_match (conds : List Condition) (text : String)
    (h : ∀ c ∈ conds, ∀ kw ∈ c.keywords, pyIn kw text = false) :
    ruleScan conds text =
      ("Mild", "Home care recommended. Rest, stay hydrated, and monitor symptoms.") := by
  induction conds with
  | nil => rfl
  | cons c cs ih =>
    have hc : c.keywords.any (fun kw => pyIn kw text) = false := by
      rw [List.any_eq_false]
      intro kw hkw
      simp [h c (List.mem_cons_self c cs) kw hkw]
    rw [ruleScan]
    simp only [hc, if_false]
    exact ih (fun x hx => h x (List.mem_cons_of_mem c hx))

theorem ruleScan_first_match (text : String) (pre : List Condition) (c : Condition)
    (post : List Condition) (hc : ∃ kw ∈ c.keywords, pyIn kw text = true)
    (hpre : ∀ p ∈ pre, ∀ kw ∈ p.keywords, pyIn kw text = false) :
    ruleScan (pre ++ c :: post) text = (c.severity, c.advice) := by
  induction pre with
  | nil =>
    have hany : c.keywords.any (fun kw => pyIn kw text) = true := by
      rw [List.any_eq_true]
      obtain ⟨kw, hkw, hin⟩ := hc
      exact ⟨kw, hkw, hin⟩
    rw [List.nil_append, ruleScan]
    simp [hany]
  | cons p pre ih =>
    have hp : p.keywords.any (fun kw => pyIn kw text) = false := by
      rw [List.any_eq_false]
      intro kw hkw
      simp [hpre p (List.mem_cons_self p pre) kw hkw]
    rw [List.cons_append, ruleScan]
    simp only [hp, if_false]
    exact ih (fun x hx => hpre x (List.mem_cons_of_mem p hx))

/-! ### Helper lemmas: the reasoning tier -/

theorem llm_triage_severity_mem (client : Bool) (call : Option String) (text s a d : String)
    (h : llm_triage client call text = some (s, a, d)) : s ∈ SEVERITY_DISPLAY := by
  cases client with
  | false => exact absurd h (by simp [llm_triage])
  | true =>
    cases call with
    | none => exact absurd h (by simp [llm_triage])
    | some content =>
      have h2 : some ((parseLLMText (pyStrip content)).severity,
          (parseLLMText (pyStrip content)).advice,
          (parseLLMText (pyStrip content)).disease) = some (s, a, d) := h
      have hs : (parseLLMText (pyStrip content)).severity = s :=
        congrArg Prod.fst (Option.some.inj h2)
      rw [← hs]
      exact parseLLMText_severity_mem _

/-! ### Claim theorems -/

/-- Claim C1, counterexample to the claim as stated: with the reasoning
tier enabled and a response lacking an `Advice:` line, `triage_symptoms`
returns empty advice; and with a dataset row whose riskLevel is
unrecognized, it returns a severity outside the three tiers. -/
theorem triage_verdict_claim_cex :
    (triage_symptoms none true (some "Severity: severe") "chest pain").2.1 = "" ∧
    (triage_symptoms (some [⟨"pain", "X", "Bogus"⟩]) false none "pain").1 ∉ SEVERITY_DISPLAY :=
  ⟨by decide, by decide⟩

/-- Claim C1 (amended): `triage_symptoms` always returns a verdict; its
severity is in {Mild, Moderate, Severe} provided every dataset-index
riskLevel is one of the three tiers, and its advice is non-empty whenever
the reasoning tier did not produce the verdict (only the reasoning tier
can yield empty advice, and only a dataset row with an unrecognized
riskLevel can yield a severity outside the three tiers). -/
theorem triage_verdict_wellformed (symptoms_df : Option (List DatasetRow)) (client : Bool)
    (call : Option String) (text : String)
    (hdf : ∀ r ∈ symptoms_df.getD [], r.risk_level ∈ SEVERITY_DISPLAY) :
    (triage_symptoms symptoms_df client call text).1 ∈ SEVERITY_DISPLAY ∧
    (llm_triage client call (preprocess text) = none →
      (triage_symptoms symptoms_df client call text).2.1 ≠ "") := by
  cases hd : dataset_match symptoms_df (preprocess text) with
  | some res =>
    have htr : triage_symptoms symptoms_df client call text =
        (res.severity, res.advice, res.disease) := by
      simp [triage_symptoms, hd]
    cases symptoms_df with
    | none =>
      have h0 : dataset_match (none : Option (List DatasetRow)) (preprocess text) = none := rfl
      rw [h0] at hd
      exact absurd hd (by simp)
    | some rows =>
      obtain ⟨row, hrow, -, hres⟩ := dataset_match_row rows (preprocess text) res hd
      constructor
      · rw [htr]
        show res.severity ∈ SEVERITY_DISPLAY
        rw [hres]
        exact hdf row hrow
      · intro hx
        rw [htr]
        show res.advice ≠ ""
        rw [hres]
        exact dataset_advice_ne_empty _
  | none =>
    cases hl : llm_triage client call (preprocess text) with
    | some v =>
      obtain ⟨s, a, d⟩ := v
      have htr : triage_symptoms symptoms_df client call text = (s, a, d) := by
        simp [triage_symptoms, hd, hl]
      constructor
      · rw [htr]
        exact llm_triage_severity_mem client call _ s a d hl
      · intro hnone
        exfalso
        exact Option.noConfusion hnone
    | none =>
      have htr : triage_symptoms symptoms_df client call text =
          ((rule_based_triage (preprocess text)).1, (rule_based_triage (preprocess text)).2, "") := by
        simp [triage_symptoms, hd, hl]
      constructor
      · rw [htr]
        exact ruleScan_severity_mem CONDITIONS _ (by decide)
      · intro hx
        rw [htr]
        exact ruleScan_advice_ne_empty CONDITIONS _ (by decide)

/-- Witness for the amended C1 at a concrete input. -/
theorem triage_verdict_wellformed_witness :
    (triage_symptoms (some [⟨"fever", "Flu", "Mild"⟩]) false none "hello").1 ∈ SEVERITY_DISPLAY ∧
    (llm_triage false none (preprocess "hello") = none →
      (triage_symptoms (some [⟨"fever", "Flu", "Mild"⟩]) false none "hello").2.1 ≠ "") :=
  triage_verdict_wellformed (some [⟨"fever", "Flu", "Mild"⟩]) false none "hello" (by decide)

/-- Claim C2: the three tiers are tried in the fixed order dataset,
reasoning, rule, and the first success is returned; a dataset success is
returned verbatim (disease, severity, templated advice) and the later
tiers are never consulted — the result does not depend on the reasoning
environment. -/
theorem triage_waterfall :
    (∀ symptoms_df client call text res,
      dataset_match symptoms_df (preprocess text) = some res →
      triage_symptoms symptoms_df client call text = (res.severity, res.advice, res.disease)) ∧
    (∀ symptoms_df client call text s a d,
      dataset_match symptoms_df (preprocess text) = none →
      llm_triage client call (preprocess text) = some (s, a, d) →
      triage_symptoms symptoms_df client call text = (s, a, d)) ∧
    (∀ symptoms_df client call text,
      dataset_match symptoms_df (preprocess text) = none →
      llm_triage client call (preprocess text) = none →
      triage_symptoms symptoms_df client call text =
        ((rule_based_triage (preprocess text)).1, (rule_based_triage (preprocess text)).2, "")) := by
  refine ⟨?_, ?_, ?_⟩
  · intro df client call text res h
    simp [triage_symptoms, h]
  · intro df client call text s a d h1 h2
    simp [triage_symptoms, h1, h2]
  · intro df client call text h1 h2
    simp [triage_symptoms, h1, h2]

/-- Witness for C2: the dataset tier wins over a reasoning tier that
would answer differently. -/
theorem triage_waterfall_witness :
    triage_symptoms (some [⟨"fever", "Flu", "Mild"⟩]) true
      (some "Severity: severe\nAdvice: go now") "fever" =
    ("Mild", "Possible: Flu. Please consult a doctor for proper diagnosis.", "Flu") :=
  triage_waterfall.1 (some [⟨"fever", "Flu", "Mild"⟩]) true
    (some "Severity: severe\nAdvice: go now") "fever"
    ⟨"Flu", "Mild", "Possible: Flu. Please consult a doctor for proper diagnosis."⟩ (by decide)

/-- Claim C3: the dataset matcher collects exactly the rows whose symptom
phrase is a substring of the input; with no candidate it fails, otherwise
it returns the first-encountered candidate of numerically highest risk
priority (Severe=3, Moderate=2, Mild=1), and a Severe candidate always
yields severity Severe. -/
theorem dataset_match_spec (rows : List DatasetRow) (text : String) :
    (candidates rows text = [] → dataset_match (some rows) text = none) ∧
    (candidates rows text ≠ [] →
      ∃ best pre post, candidates rows text = pre ++ best :: post ∧
        dataset_match (some rows) text =
          some ⟨best.disease, best.risk_level, dataset_advice best.disease⟩ ∧
        (∀ r ∈ pre, risk_priority r.risk_level < risk_priority best.risk_level) ∧
        (∀ r ∈ post, risk_priority r.risk_level ≤ risk_priority best.risk_level)) ∧
    ((∃ r ∈ candidates rows text, r.risk_level = "Severe") →
      ∃ res, dataset_match (some rows) text = some res ∧ res.severity = "Severe") := by
  refine ⟨dataset_match_of_no_candidate rows text, ?_, ?_⟩
  · intro hne
    cases hc : candidates rows text with
    | nil => exact absurd hc hne
    | cons m ms =>
      obtain ⟨pre, post, heq, hpre, hpost⟩ :=
        pyMaxAux_spec (fun row => risk_priority row.risk_level) m ms
      exact ⟨pyMaxAux (fun row => risk_priority row.risk_level) m ms, pre, post, heq,
        dataset_match_of_candidates rows text m ms hc, hpre, hpost⟩
  · intro hex
    obtain ⟨r, hr, hsev⟩ := hex
    cases hc : candidates rows text with
    | nil => rw [hc] at hr; exact absurd hr (List.not_mem_nil r)
    | cons m ms =>
      refine ⟨⟨(pyMaxAux (fun row => risk_priority row.risk_level) m ms).disease,
        (pyMaxAux (fun row => risk_priority row.risk_level) m ms).risk_level,
        dataset_advice (pyMaxAux (fun row => risk_priority row.risk_level) m ms).disease⟩,
        dataset_match_of_candidates rows text m ms hc, ?_⟩
      show (pyMaxAux (fun row => risk_priority row.risk_level) m ms).risk_level = "Severe"
      obtain ⟨pre, post, heq, hpre, hpost⟩ :=
        pyMaxAux_spec (fun row => risk_priority row.risk_level) m ms
      rw [hc] at hr
      have hr3 : risk_priority r.risk_level = 3 := by rw [hsev]; decide
      have hle : risk_priority r.risk_level ≤
          risk_priority (pyMaxAux (fun row => risk_priority row.risk_level) m ms).risk_level := by
        rw [heq] at hr
        rcases List.mem_append.mp hr with hpm | hrest
        · exact le_of_lt (hpre r hpm)
        · rcases List.mem_cons.mp hrest with heqr | hpm
          · rw [heqr]
          · exact hpost r hpm
      have h3 : risk_priority
          (pyMaxAux (fun row => risk_priority row.risk_level) m ms).risk_level = 3 :=
        le_antisymm (risk_priority_le_three _) (hr3 ▸ hle)
      exact risk_level_severe_of_priority_three _ h3

/-- Witness for C3: two matching rows with risk levels Moderate and
Severe produce severity Severe. -/
theorem dataset_match_spec_witness :
    ∃ res, dataset_match (some [⟨"fever", "A", "Moderate"⟩, ⟨"cough", "B", "Severe"⟩])
      "fever and cough" = some res ∧ res.severity = "Severe" :=
  (dataset_match_spec [⟨"fever", "A", "Moderate"⟩, ⟨"cough", "B", "Severe"⟩]
    "fever and cough").2.2 (by decide)

/-- Claim C4, counterexample to the claim as stated: a riskLevel that
does not map onto a tier is kept by the loader (only trimmed and
title-cased), reaches the in-memory index, and affects a runtime match. -/
theorem load_dataset_claim_cex :
    load_dataset (some [⟨"Pain", "X", " bogus "⟩]) = some [⟨"pain", "X", "Bogus"⟩] ∧
    ("Bogus" ∉ SEVERITY_DISPLAY) ∧
    dataset_match (load_dataset (some [⟨"Pain", "X", " bogus "⟩])) "pain" =
      some ⟨"X", "Bogus", "Possible: X. Please consult a doctor for proper diagnosis."⟩ :=
  ⟨by decide, by decide, by decide⟩

/-- Claim C4 (amended): an unrecognized riskLevel is NOT rejected at load
time; loading a present source never fails, and every cleaned row —
whatever its riskLevel — is carried into the in-memory index, where it
can affect a runtime match. -/
theorem load_dataset_keeps_all_rows (rows : List DatasetRow) (r : DatasetRow) (h : r ∈ rows) :
    (load_dataset (some rows)).isSome = true ∧
    cleanRow r ∈ (load_dataset (some rows)).getD [] := by
  refine ⟨rfl, ?_⟩
  simp only [load_dataset, Option.getD_some]
  exact List.mem_map_of_mem cleanRow h

/-- Witness for the amended C4 at a concrete row. -/
theorem load_dataset_keeps_all_rows_witness :
    (load_dataset (some [⟨"Pain", "X", " bogus "⟩])).isSome = true ∧
    cleanRow ⟨"Pain", "X", " bogus "⟩ ∈ (load_dataset (some [⟨"Pain", "X", " bogus "⟩])).getD [] :=
  load_dataset_keeps_all_rows [⟨"Pain", "X", " bogus "⟩] ⟨"Pain", "X", " bogus "⟩ (by decide)

/-- Claim C5: the response parser matches the label prefixes
case-insensitively, takes the trimmed text after the first colon, keeps a
severity only when its title-cased form is a recognized tier (otherwise
the Mild default stays); "Severity: severe\nAdvice: go now\nDisease: flu"
parses to (Severe, "go now", "flu"), and a response with no Severity line
yields severity Mild. -/
theorem llm_parse_spec :
    parseLLMText "Severity: severe\nAdvice: go now\nDisease: flu" = ⟨"Severe", "go now", "flu"⟩ ∧
    (∀ st line, isSevLine line = true → sevVal line ∉ SEVERITY_DISPLAY →
      parseLine st line = st) ∧
    (∀ st line, isSevLine line = true → sevVal line ∈ SEVERITY_DISPLAY →
      (parseLine st line).severity = sevVal line) ∧
    (∀ text, (∀ l ∈ pySplitlines (pyStrip text), isSevLine l = false) →
      (llm_triage true (some text) "").map (fun v => v.1) = some "Mild") := by
  refine ⟨by decide, ?_, ?_, ?_⟩
  · intro st line hs hns
    simp [parseLine, hs, hns]
  · intro st line hs hmem
    simp [parseLine, hs, hmem]
  · intro text hno
    have hsev : (parseLLMText (pyStrip text)).severity = "Mild" := by
      rw [parseLLMText, foldl_parseLine_severity, lastSevVal_none_of_no_sev_line _ hno]
      rfl
    simp [llm_triage, hsev]

/-- Witness for C5 at a concrete response with no Severity line. -/
theorem llm_parse_spec_witness :
    (llm_triage true (some "Advice: go now\nDisease: flu") "").map (fun v => v.1) =
      some "Mild" :=
  llm_parse_spec.2.2.2 "Advice: go now\nDisease: flu" (by decide)

/-- Claim C6: a disabled reasoning capability or a faulted remote call
makes the reasoning matcher report no match, triage proceeds to the rule
tier, and no dataset or reasoning failure reaches the caller — triage
still returns a verdict (the rule tier's). -/
theorem llm_failure_fallthrough :
    (∀ call text, llm_triage false call text = none) ∧
    (∀ client text, llm_triage client none text = none) ∧
    (∀ symptoms_df client call text,
      dataset_match symptoms_df (preprocess text) = none →
      llm_triage client call (preprocess text) = none →
      triage_symptoms symptoms_df client call text =
        ((rule_based_triage (preprocess text)).1, (rule_based_triage (preprocess text)).2, "")) := by
  refine ⟨?_, ?_, ?_⟩
  · intro call text
    simp [llm_triage]
  · intro client text
    cases client <;> simp [llm_triage]
  · intro df client call text h1 h2
    simp [triage_symptoms, h1, h2]

/-- Witness for C6: with no credential and a response that would say
Severe, the reasoning tier yields no match and the rule tier answers. -/
theorem llm_failure_fallthrough_witness :
    llm_triage false (some "Severity: Severe") (preprocess "chest pain") = none ∧
    triage_symptoms none false (some "Severity: Severe") "chest pain" =
      ((rule_based_triage (preprocess "chest pain")).1,
       (rule_based_triage (preprocess "chest pain")).2, "") :=
  ⟨llm_failure_fallthrough.1 (some "Severity: Severe") (preprocess "chest pain"),
   llm_failure_fallthrough.2.2 none false (some "Severity: Severe") "chest pain"
     (by decide) (by decide)⟩

/-- Claim C7: the rule matcher scans the catalog in listed order and
returns the severity/advice of the first rule with a keyword occurring as
a substring of the input; with no match it returns the hardcoded Mild
default, so it is total (also on the empty string); with the other tiers
disabled, "I have chest pain" triages Severe and "just a mild headache"
triages Mild. -/
theorem rule_tier_spec :
    (∀ conds text, (∀ c ∈ conds, ∀ kw ∈ c.keywords, pyIn kw text = false) →
      ruleScan conds text =
        ("Mild", "Home care recommended. Rest, stay hydrated, and monitor symptoms.")) ∧
    (∀ text pre c post, (∃ kw ∈ c.keywords, pyIn kw text = true) →
      (∀ p ∈ pre, ∀ kw ∈ p.keywords, pyIn kw text = false) →
      ruleScan (pre ++ c :: post) text = (c.severity, c.advice)) ∧
    rule_based_triage "" =
      ("Mild", "Home care recommended. Rest, stay hydrated, and monitor symptoms.") ∧
    triage_symptoms none false none "I have chest pain" =
      ("Severe", "Go to the ER immediately. Call emergency services (911 or your local number).",
        "") ∧
    triage_symptoms none false none "just a mild headache" =
      ("Mild", "Home care recommended. Rest, stay hydrated, and monitor symptoms.", "") := by
  refine ⟨ruleScan_no_match, ?_, by decide, by decide, by decide⟩
  intro text pre c post hc hpre
  exact ruleScan_first_match text pre c post hc hpre

/-- Witness for C7 at a concrete no-match input. -/
theorem rule_tier_spec_witness :
    ruleScan CONDITIONS "zzz" =
      ("Mild", "Home care recommended. Rest, stay hydrated, and monitor symptoms.") :=
  rule_tier_spec.1 CONDITIONS "zzz" (by decide)

/-- Claim C8: appending N entries through the History Store and then
reading the history back yields the prior entries unchanged followed by
the N new entries in append order, oldest first. -/
theorem history_append_roundtrip (file : Option (List HistoryEntry)) (es : List HistoryEntry) :
    load_history (es.foldl save_history file) = load_history file ++ es := by
  induction es generalizing file with
  | nil => simp
  | cons e es ih =>
    rw [List.foldl_cons, ih]
    cases file <;> simp [save_history, load_history]

/-- Claim C9: in the response parser the last matching line wins: advice
and disease equal the trimmed after-colon value of the last line carrying
the corresponding label (empty string if none), and severity equals the
value of the last Severity line whose title-cased value is a recognized
tier (Mild if none). -/
theorem parse_last_line_wins (text : String) :
    (parseLLMText text).severity = (lastSevVal (pySplitlines text)).getD "Mild" ∧
    (parseLLMText text).advice = (lastLabVal isAdvLine (pySplitlines text)).getD "" ∧
    (parseLLMText text).disease = (lastLabVal isDisLine (pySplitlines text)).getD "" :=
  ⟨foldl_parseLine_severity _ _, foldl_parseLine_advice _ _, foldl_parseLine_disease _ _⟩

/-- Claim C10: a dataset row whose symptom phrase is the empty string
makes the dataset matcher succeed on every input (the empty string is a
substring of every text), so triage always returns the dataset result and
the reasoning and rule tiers are never reached. -/
theorem empty_symptom_row_always_matches (rows : List DatasetRow) (client : Bool)
    (call : Option String) (text : String) (h : ∃ r ∈ rows, r.symptom = "") :
    pyIn "" (preprocess text) = true ∧
    ∃ res, dataset_match (some rows) (preprocess text) = some res ∧
      triage_symptoms (some rows) client call text = (res.severity, res.advice, res.disease) := by
  obtain ⟨r, hr, hsym⟩ := h
  have hmem : r ∈ candidates rows (preprocess text) := by
    simp only [candidates, List.mem_filter]
    exact ⟨hr, by rw [hsym]; exact pyIn_empty_left _⟩
  refine ⟨pyIn_empty_left _, ?_⟩
  cases hc : candidates rows (preprocess text) with
  | nil => rw [hc] at hmem; exact absurd hmem (List.not_mem_nil r)
  | cons m ms =>
    refine ⟨_, dataset_match_of_candidates rows (preprocess text) m ms hc, ?_⟩
    simp [triage_symptoms, dataset_match_of_candidates rows (preprocess text) m ms hc]

/-- Witness for C10: a dataset with an empty symptom phrase answers even
the empty input, overriding an enabled reasoning tier. -/
theorem empty_symptom_row_always_matches_witness :
    pyIn "" (preprocess "") = true ∧
    ∃ res, dataset_match (some [⟨"", "Unknown", "Mild"⟩]) (preprocess "") = some res ∧
      triage_symptoms (some [⟨"", "Unknown", "Mild"⟩]) true (some "Severity: Severe") "" =
        (res.severity, res.advice, res.disease) :=
  empty_symptom_row_always_matches [⟨"", "Unknown", "Mild"⟩] true (some "Severity: Severe") ""
    (by decide)

end MediAid
